import Mathlib

/-!
Verification development for the energy consumption dashboard
(`energy_app.py`).  The dashboard loads a per-country/per-year table of
energy figures, computes summary metrics, and derives chart data
(trend lines, energy-mix pie, top-N ranking, renewable growth series,
per-country growth rates).

Modelling conventions:
* A pandas `DataFrame` row becomes an `EnergyRow` record and a frame a
  `List EnergyRow` (order = original row order).  The loader back-fills
  missing consumption values with 0 (`fillna(0)`), so all fields are total.
* Python floats are modelled as exact rationals `ℚ`; the one place the
  code takes a real root (the compound growth rate) is modelled over `ℝ`.
* `year` is stored as a datetime in the code but only its year component
  is ever compared or extracted, so it is modelled as `Int`.
* `np.random` draws are modelled by an explicit stream `u : Nat → ℚ` of
  uniform-[0,1) samples indexed by draw order; seeding fixes the stream.
-/

/-- One row of the energy table, field order following the columns used by
`energy_app.py` (missing values are back-filled with 0 at load time). -/
structure EnergyRow where
  country : String
  year : Int
  primary_energy_consumption : ℚ
  coal_consumption : ℚ
  gas_consumption : ℚ
  oil_consumption : ℚ
  nuclear_consumption : ℚ
  hydro_consumption : ℚ
  wind_consumption : ℚ
  solar_consumption : ℚ
  other_renewable_consumption : ℚ
  electricity_generation : ℚ
  gdp : ℚ
  population : ℚ
deriving DecidableEq, Inhabited

/-- An energy table: ordered collection of rows, as in the loaded frame. -/
abbrev EnergyTable : Type := List EnergyRow

/-- `df['year'].max()` : the maximum year present (0 for the empty table,
which pandas would render as NaN; no claim touches that case). -/
def latestYear (t : EnergyTable) : Int :=
  match t with
  | [] => 0
  | r :: rs => rs.foldl (fun m x => max m x.year) r.year

/-- `df[df['year'] == latest_year]` : the rows of the latest year. -/
def latestData (t : EnergyTable) : List EnergyRow :=
  t.filter (fun r => decide (r.year = latestYear t))

/-- Sum of a column over a frame (`frame[col].sum()`). -/
def colSum (f : EnergyRow → ℚ) (l : List EnergyRow) : ℚ :=
  (l.map f).sum

/-- `renewable_total` of `calculate_energy_metrics`: the per-column sums of
hydro, wind, solar and other-renewable over the latest-year rows, added in
the loop order of the code. -/
def renewable_total (t : EnergyTable) : ℚ :=
  colSum (fun r => r.hydro_consumption) (latestData t) +
    colSum (fun r => r.wind_consumption) (latestData t) +
    colSum (fun r => r.solar_consumption) (latestData t) +
    colSum (fun r => r.other_renewable_consumption) (latestData t)

/-- `fossil_total` of `calculate_energy_metrics`: per-column sums of coal,
gas and oil over the latest-year rows. -/
def fossil_total (t : EnergyTable) : ℚ :=
  colSum (fun r => r.coal_consumption) (latestData t) +
    colSum (fun r => r.gas_consumption) (latestData t) +
    colSum (fun r => r.oil_consumption) (latestData t)

/-- The four-field record returned by `calculate_energy_metrics`. -/
structure EnergyMetrics where
  total_consumption : ℚ
  avg_consumption : ℚ
  renewable_percentage : ℚ
  countries_count : Nat
deriving DecidableEq

/-- `calculate_energy_metrics(df)`: restrict to the latest year, sum and
average primary consumption, compute the renewable share of
renewable+fossil (0 when that denominator is not positive), and count the
latest-year rows.  (`mean` of an empty frame is NaN in pandas; here `ℚ`
division by zero yields 0 — no claim touches the empty case.) -/
def calculate_energy_metrics (t : EnergyTable) : EnergyMetrics :=
  let latest := latestData t
  let total := colSum (fun r => r.primary_energy_consumption) latest
  let avg := total / (latest.length : ℚ)
  let rt := renewable_total t
  let ft := fossil_total t
  let pct := if 0 < rt + ft then (rt / (rt + ft)) * 100 else 0
  ⟨total, avg, pct, latest.length⟩

/-- All consumption quantities of a row are non-negative (the data-model
invariant of the spec, §3). -/
def NonnegRow (r : EnergyRow) : Prop :=
  0 ≤ r.primary_energy_consumption ∧ 0 ≤ r.coal_consumption ∧
    0 ≤ r.gas_consumption ∧ 0 ≤ r.oil_consumption ∧
    0 ≤ r.nuclear_consumption ∧ 0 ≤ r.hydro_consumption ∧
    0 ≤ r.wind_consumption ∧ 0 ≤ r.solar_consumption ∧
    0 ≤ r.other_renewable_consumption ∧ 0 ≤ r.electricity_generation

instance (r : EnergyRow) : Decidable (NonnegRow r) := by
  unfold NonnegRow; infer_instance

lemma mem_latestData_mem {t : EnergyTable} {r : EnergyRow}
    (h : r ∈ latestData t) : r ∈ t := by
  exact (List.mem_filter.mp h).1

lemma colSum_nonneg {l : List EnergyRow} {f : EnergyRow → ℚ}
    (h : ∀ r ∈ l, 0 ≤ f r) : 0 ≤ colSum f l := by
  unfold colSum
  apply List.sum_nonneg
  intro x hx
  rcases List.mem_map.mp hx with ⟨r, hr, rfl⟩
  exact h r hr

lemma renewable_total_nonneg {t : EnergyTable}
    (h : ∀ r ∈ t, NonnegRow r) : 0 ≤ renewable_total t := by
  unfold renewable_total
  have h' : ∀ r ∈ latestData t, NonnegRow r :=
    fun r hr => h r (mem_latestData_mem hr)
  have h1 : 0 ≤ colSum (fun r => r.hydro_consumption) (latestData t) :=
    colSum_nonneg (fun r hr => (h' r hr).2.2.2.2.2.1)
  have h2 : 0 ≤ colSum (fun r => r.wind_consumption) (latestData t) :=
    colSum_nonneg (fun r hr => (h' r hr).2.2.2.2.2.2.1)
  have h3 : 0 ≤ colSum (fun r => r.solar_consumption) (latestData t) :=
    colSum_nonneg (fun r hr => (h' r hr).2.2.2.2.2.2.2.1)
  have h4 : 0 ≤ colSum (fun r => r.other_renewable_consumption) (latestData t) :=
    colSum_nonneg (fun r hr => (h' r hr).2.2.2.2.2.2.2.2.1)
  linarith

lemma fossil_total_nonneg {t : EnergyTable}
    (h : ∀ r ∈ t, NonnegRow r) : 0 ≤ fossil_total t := by
  unfold fossil_total
  have h' : ∀ r ∈ latestData t, NonnegRow r :=
    fun r hr => h r (mem_latestData_mem hr)
  have h1 : 0 ≤ colSum (fun r => r.coal_consumption) (latestData t) :=
    colSum_nonneg (fun r hr => (h' r hr).2.1)
  have h2 : 0 ≤ colSum (fun r => r.gas_consumption) (latestData t) :=
    colSum_nonneg (fun r hr => (h' r hr).2.2.1)
  have h3 : 0 ≤ colSum (fun r => r.oil_consumption) (latestData t) :=
    colSum_nonneg (fun r hr => (h' r hr).2.2.2.1)
  linarith

/-- C1: for a table whose consumption values are all non-negative,
`calculate_energy_metrics` returns `renewable_percentage` equal to
`100 * renewable_total / (renewable_total + fossil_total)` (with the zero
convention when the denominator is 0); the value always lies in `[0, 100]`
and equals 0 when `renewable_total + fossil_total = 0`. -/
theorem renewable_percentage_formula_and_bounds (t : EnergyTable)
    (h : ∀ r ∈ t, NonnegRow r) :
    ((calculate_energy_metrics t).renewable_percentage =
       if renewable_total t + fossil_total t = 0 then 0
       else 100 * renewable_total t / (renewable_total t + fossil_total t)) ∧
    0 ≤ (calculate_energy_metrics t).renewable_percentage ∧
    (calculate_energy_metrics t).renewable_percentage ≤ 100 ∧
    (renewable_total t + fossil_total t = 0 →
      (calculate_energy_metrics t).renewable_percentage = 0) := by
  have hr := renewable_total_nonneg h
  have hf := fossil_total_nonneg h
  have hpct : (calculate_energy_metrics t).renewable_percentage =
      if 0 < renewable_total t + fossil_total t then
        (renewable_total t / (renewable_total t + fossil_total t)) * 100
      else 0 := rfl
  by_cases hz : renewable_total t + fossil_total t = 0
  · have hnotpos : ¬ 0 < renewable_total t + fossil_total t := by
      rw [hz]; exact lt_irrefl 0
    rw [hpct, if_neg hnotpos, if_pos hz]
    exact ⟨rfl, le_refl 0, by norm_num, fun _ => rfl⟩
  · have hpos : 0 < renewable_total t + fossil_total t :=
      lt_of_le_of_ne (by linarith) (Ne.symm hz)
    rw [hpct, if_pos hpos, if_neg hz]
    constructor
    · field_simp
      ring
    refine ⟨?_, ?_, fun hzz => absurd hzz hz⟩
    · positivity
    · have hle : renewable_total t / (renewable_total t + fossil_total t) ≤ 1 := by
        rw [div_le_one hpos]
        linarith
      nlinarith

/-- Witness table for C1: a single fully non-negative row. -/
def rowC1 : EnergyRow :=
  ⟨"A", 2022, 100, 10, 20, 30, 5, 8, 4, 2, 1, 40, 1000, 1000000⟩

/-- C1 witness: the bounds hold on a concrete non-negative table. -/
theorem renewable_percentage_formula_and_bounds_witness :
    0 ≤ (calculate_energy_metrics [rowC1]).renewable_percentage ∧
      (calculate_energy_metrics [rowC1]).renewable_percentage ≤ 100 :=
  ⟨(renewable_percentage_formula_and_bounds [rowC1] (by decide)).2.1,
   (renewable_percentage_formula_and_bounds [rowC1] (by decide)).2.2.1⟩

lemma le_foldl_year_max (l : List EnergyRow) (a : Int) :
    a ≤ l.foldl (fun m x => max m x.year) a := by
  induction l generalizing a with
  | nil => exact le_refl a
  | cons x xs ih =>
    exact le_trans (le_max_left a x.year) (ih (max a x.year))

lemma mem_le_foldl_year_max (l : List EnergyRow) (a : Int) (r : EnergyRow)
    (hr : r ∈ l) : r.year ≤ l.foldl (fun m x => max m x.year) a := by
  induction l generalizing a with
  | nil => cases hr
  | cons x xs ih =>
    rcases List.mem_cons.mp hr with h | h
    · subst h
      exact le_trans (le_max_right a r.year) (le_foldl_year_max xs (max a r.year))
    · exact ih (max a x.year) h

lemma foldl_year_max_cases (l : List EnergyRow) (a : Int) :
    l.foldl (fun m x => max m x.year) a = a ∨
      ∃ r ∈ l, l.foldl (fun m x => max m x.year) a = r.year := by
  induction l generalizing a with
  | nil => exact Or.inl rfl
  | cons x xs ih =>
    rcases ih (max a x.year) with h | ⟨r, hr, h⟩
    · rcases max_choice a x.year with hm | hm
      · exact Or.inl (by rw [List.foldl_cons, h, hm])
      · exact Or.inr ⟨x, List.mem_cons_self x xs, by rw [List.foldl_cons, h, hm]⟩
    · exact Or.inr ⟨r, List.mem_cons_of_mem x hr, by rw [List.foldl_cons, h]⟩

lemma latestYear_is_ub {t : EnergyTable} {r : EnergyRow} (hr : r ∈ t) :
    r.year ≤ latestYear t := by
  cases t with
  | nil => cases hr
  | cons x xs =>
    rcases List.mem_cons.mp hr with h | h
    · subst h; exact le_foldl_year_max xs r.year
    · exact mem_le_foldl_year_max xs x.year r h

lemma latestYear_mem {t : EnergyTable} (h : t ≠ []) :
    latestYear t ∈ t.map (fun r => r.year) := by
  cases t with
  | nil => exact absurd rfl h
  | cons x xs =>
    rcases foldl_year_max_cases xs x.year with hc | ⟨r, hr, hc⟩
    · exact (by rw [latestYear, hc]; exact List.mem_map_of_mem _ (List.mem_cons_self x xs))
    · exact (by
        rw [latestYear, hc]
        exact List.mem_map_of_mem _ (List.mem_cons_of_mem x hr))

/-- Spec-mirroring definition (for comparison with the code): the number of
distinct countries that have at least one row at the maximum year. -/
def distinctCountriesAtLatest (t : EnergyTable) : Nat :=
  (((latestData t).map (fun r => r.country)).dedup).length

/-- Two rows of the same country at the same (latest) year. -/
def rowC2a : EnergyRow := ⟨"A", 2022, 10, 1, 1, 1, 0, 0, 0, 0, 0, 0, 0, 0⟩

/-- Duplicate row of `rowC2a`'s (country, year) pair with other values. -/
def rowC2b : EnergyRow := ⟨"A", 2022, 20, 2, 2, 2, 0, 0, 0, 0, 0, 0, 0, 0⟩

/-- C2 counterexample: with two rows for the same country at the maximum
year, `countries_count` is the number of latest-year rows (2), not the
number of distinct countries at that year (1). -/
theorem countries_count_cex :
    (calculate_energy_metrics [rowC2a, rowC2b]).countries_count ≠
      distinctCountriesAtLatest [rowC2a, rowC2b] ∧
    (calculate_energy_metrics [rowC2a, rowC2b]).countries_count = 2 ∧
    distinctCountriesAtLatest [rowC2a, rowC2b] = 1 := by
  refine ⟨?_, ?_, ?_⟩ <;> decide

/-- C2 (amended): for every non-empty table, `countries_count` equals the
number of rows at the maximum year present in the table (`latestYear` is
indeed an attained maximum of the year column). -/
theorem countries_count_eq_latest_rows (t : EnergyTable) (h : t ≠ []) :
    (calculate_energy_metrics t).countries_count =
      (t.filter (fun r => decide (r.year = latestYear t))).length ∧
    latestYear t ∈ t.map (fun r => r.year) ∧
    (∀ r ∈ t, r.year ≤ latestYear t) := by
  exact ⟨rfl, latestYear_mem h, fun r hr => latestYear_is_ub hr⟩

/-- C2 witness: the amended statement evaluated on a concrete table. -/
theorem countries_count_eq_latest_rows_witness :
    (calculate_energy_metrics [rowC2a, rowC2b]).countries_count =
      ([rowC2a, rowC2b].filter
        (fun r => decide (r.year = latestYear [rowC2a, rowC2b]))).length :=
  (countries_count_eq_latest_rows [rowC2a, rowC2b] (by decide)).1

/-- The fixed country list of `create_sample_data`. -/
def sampleCountries : List String :=
  ["United States", "China", "India", "Germany", "Japan",
   "United Kingdom", "France", "Brazil", "Canada", "Russia"]

/-- `np.random.uniform(lo, hi)` modelled as `lo + (hi - lo) * u k`, where
`u k` is the k-th uniform-[0,1) sample of the seeded global stream. -/
def udraw (u : Nat → ℚ) (k : Nat) (lo hi : ℚ) : ℚ :=
  lo + (hi - lo) * u k

/-- One generated row of `create_sample_data` for country index `ci`,
country name `c` and year offset `i` (year `2000 + i`).  The draw indices
follow the exact evaluation order of the Python source: 2 draws per
country (base, growth), then 12 draws per year (jitter, coal, gas, oil,
nuclear, hydro, wind, solar, other renewable, electricity, gdp,
population), so a country block spans `2 + 23 * 12 = 278` draws. -/
def sampleRow (u : Nat → ℚ) (ci : Nat) (c : String) (i : Nat) : EnergyRow :=
  let b := ci * 278
  let base := udraw u b 50 500
  let growth := udraw u (b + 1) (-(2/100)) (5/100)
  let yb := b + 2 + i * 12
  let consumption := base * (1 + growth) ^ i * udraw u yb (9/10) (11/10)
  ⟨c, 2000 + (i : Int),
   max consumption 0,
   max (consumption * (3/10) * udraw u (yb + 1) (8/10) (12/10)) 0,
   max (consumption * (25/100) * udraw u (yb + 2) (8/10) (12/10)) 0,
   max (consumption * (3/10) * udraw u (yb + 3) (8/10) (12/10)) 0,
   max (consumption * (1/10) * udraw u (yb + 4) (1/2) (3/2)) 0,
   max (consumption * (5/100) * udraw u (yb + 5) (1/2) 2) 0,
   max (consumption * (3/100) * udraw u (yb + 6) 0 3) 0,
   max (consumption * (2/100) * udraw u (yb + 7) 0 4) 0,
   max (consumption * (2/100) * udraw u (yb + 8) (1/2) 2) 0,
   max (consumption * (4/10) * udraw u (yb + 9) (9/10) (11/10)) 0,
   consumption * udraw u (yb + 10) 20 100,
   udraw u (yb + 11) 1000000 1000000000⟩

/-- `create_sample_data()`: for each of the 10 fixed countries and each of
the 23 years 2000–2022, one generated row (country outer loop, year inner
loop, appended in order).  `u` is the seeded uniform stream
(`np.random.seed(42)` fixes it). -/
def create_sample_data (u : Nat → ℚ) : EnergyTable :=
  sampleCountries.enum.flatMap
    (fun p => (List.range 23).map (fun i => sampleRow u p.1 p.2 i))

/-- `load_energy_data()` outcomes: a successful CSV parse, a missing file
(`FileNotFoundError`), or any other exception during load (parse error). -/
inductive LoadOutcome where
  | ok (t : EnergyTable)
  | fileNotFound
  | parseError (msg : String)

/-- `load_energy_data()`: on success the cleaned table (the `dropna` /
`fillna(0)` cleaning is absorbed by the total-field row representation),
on either failure `None` plus the user-visible `st.error` message shown. -/
def load_energy_data : LoadOutcome → Option EnergyTable × List String
  | LoadOutcome.ok t => (some t, [])
  | LoadOutcome.fileNotFound =>
      (none, ["Dataset not found! Please download the CSV and place it in your project directory."])
  | LoadOutcome.parseError msg => (none, ["Error loading data: " ++ msg])

/-- The data-acquisition prefix of `main()`: call `load_energy_data`; if it
returned `None` (for any failure), show the info message and substitute
`create_sample_data()`.  Returns the table the dashboard proceeds with and
the accumulated user-visible messages. -/
def main_data (o : LoadOutcome) (u : Nat → ℚ) : EnergyTable × List String :=
  match load_energy_data o with
  | (some t, msgs) => (t, msgs)
  | (none, msgs) =>
      (create_sample_data u, msgs ++ ["Using sample data for demonstration."])

/-- C3 counterexample: on a parse error the dashboard does substitute the
synthetic table (the same recovery as the file-missing case), contrary to
the claim that this recovery is reserved for the missing-file case. -/
theorem parse_error_uses_sample_data_cex :
    (main_data (LoadOutcome.parseError "bad row") (fun _ => 0)).1 =
      create_sample_data (fun _ => 0) ∧
    (main_data (LoadOutcome.parseError "bad row") (fun _ => 0)).1 =
      (main_data LoadOutcome.fileNotFound (fun _ => 0)).1 := by
  exact ⟨rfl, rfl⟩

/-- C3 (amended): on a parse error the program surfaces a user-visible
error message and continues with the synthetic sample table — exactly the
recovery used for the missing-file case. -/
theorem parse_error_recovery (msg : String) (u : Nat → ℚ) :
    (main_data (LoadOutcome.parseError msg) u).1 = create_sample_data u ∧
    (main_data (LoadOutcome.parseError msg) u).2 ≠ [] ∧
    (main_data (LoadOutcome.parseError msg) u).1 =
      (main_data LoadOutcome.fileNotFound u).1 := by
  refine ⟨rfl, ?_, rfl⟩
  intro hcontra
  simp [main_data, load_energy_data] at hcontra

set_option maxRecDepth 4000 in
/-- C8: the synthetic generator is deterministic in the seeded draw stream
(same seed ⇒ same stream ⇒ identical table); every run contains exactly
the fixed 10 countries over the 23 years 2000–2022 (in that order), and
every energy-consumption field of every generated row is non-negative. -/
theorem create_sample_data_deterministic_shape_nonneg :
    (∀ u v : Nat → ℚ, (∀ k, u k = v k) →
        create_sample_data u = create_sample_data v) ∧
    (∀ u : Nat → ℚ,
        (create_sample_data u).map (fun r => (r.country, r.year)) =
          sampleCountries.flatMap
            (fun c => (List.range 23).map (fun i => (c, 2000 + (i : Int))))) ∧
    (∀ u : Nat → ℚ, ∀ r ∈ create_sample_data u,
        0 ≤ r.primary_energy_consumption ∧ 0 ≤ r.coal_consumption ∧
        0 ≤ r.gas_consumption ∧ 0 ≤ r.oil_consumption ∧
        0 ≤ r.nuclear_consumption ∧ 0 ≤ r.hydro_consumption ∧
        0 ≤ r.wind_consumption ∧ 0 ≤ r.solar_consumption ∧
        0 ≤ r.other_renewable_consumption ∧ 0 ≤ r.electricity_generation) := by
  refine ⟨?_, ?_, ?_⟩
  · intro u v huv
    have : u = v := funext huv
    rw [this]
  · intro u
    rfl
  · intro u r hr
    rcases List.mem_flatMap.mp hr with ⟨p, _, hp⟩
    rcases List.mem_map.mp hp with ⟨i, _, hrow⟩
    subst hrow
    exact ⟨le_max_right _ _, le_max_right _ _, le_max_right _ _,
      le_max_right _ _, le_max_right _ _, le_max_right _ _, le_max_right _ _,
      le_max_right _ _, le_max_right _ _, le_max_right _ _⟩

/-- C8 witness: the shape equation evaluated at a concrete stream. -/
theorem create_sample_data_deterministic_shape_nonneg_witness :
    create_sample_data (fun _ => 1/2) = create_sample_data (fun _ => 1/2) :=
  create_sample_data_deterministic_shape_nonneg.1
    (fun _ => 1/2) (fun _ => 1/2) (fun _ => rfl)

/-- Insert a row into a list sorted descending by primary consumption,
after all rows with a value `> r`'s and before the first with a value
`≤ r`'s (so earlier rows with an equal value stay ahead: stability). -/
def insertDescCons (r : EnergyRow) : List EnergyRow → List EnergyRow
  | [] => [r]
  | x :: xs =>
      if x.primary_energy_consumption ≤ r.primary_energy_consumption then
        r :: x :: xs
      else x :: insertDescCons r xs

/-- Stable descending sort by `primary_energy_consumption`; together with
`List.take`, this is `df.nlargest(n, 'primary_energy_consumption')`
(pandas `nlargest` keeps first occurrences among ties). -/
def sortDescCons : List EnergyRow → List EnergyRow
  | [] => []
  | x :: xs => insertDescCons x (sortDescCons xs)

/-- `df[df['year'].dt.year == year]`. -/
def yearRows (t : EnergyTable) (y : Int) : List EnergyRow :=
  t.filter (fun r => decide (r.year = y))

/-- `create_top_consumers_chart(df, year, top_n=10)`: the rows of the
bar chart, i.e. `df[year-rows].nlargest(top_n, 'primary_energy_consumption')`. -/
def create_top_consumers_chart (t : EnergyTable) (y : Int)
    (top_n : Nat := 10) : List EnergyRow :=
  (sortDescCons (yearRows t y)).take top_n

lemma length_insertDescCons (r : EnergyRow) (l : List EnergyRow) :
    (insertDescCons r l).length = l.length + 1 := by
  induction l with
  | nil => rfl
  | cons x xs ih =>
    by_cases hx : x.primary_energy_consumption ≤ r.primary_energy_consumption
    · simp [insertDescCons, hx]
    · simp [insertDescCons, hx, ih]

lemma length_sortDescCons (l : List EnergyRow) :
    (sortDescCons l).length = l.length := by
  induction l with
  | nil => rfl
  | cons x xs ih => simp [sortDescCons, length_insertDescCons, ih]

lemma mem_insertDescCons {y r : EnergyRow} {l : List EnergyRow}
    (h : y ∈ insertDescCons r l) : y = r ∨ y ∈ l := by
  induction l with
  | nil => simpa [insertDescCons] using h
  | cons x xs ih =>
    by_cases hx : x.primary_energy_consumption ≤ r.primary_energy_consumption
    · rw [insertDescCons, if_pos hx] at h
      rcases List.mem_cons.mp h with h1 | h1
      · exact Or.inl h1
      · exact Or.inr h1
    · rw [insertDescCons, if_neg hx] at h
      rcases List.mem_cons.mp h with h1 | h1
      · exact Or.inr (by rw [h1]; exact List.mem_cons_self x xs)
      · rcases ih h1 with h2 | h2
        · exact Or.inl h2
        · exact Or.inr (List.mem_cons_of_mem x h2)

lemma mem_sortDescCons {y : EnergyRow} {l : List EnergyRow}
    (h : y ∈ sortDescCons l) : y ∈ l := by
  induction l with
  | nil => simp [sortDescCons] at h
  | cons x xs ih =>
    rcases mem_insertDescCons (l := sortDescCons xs) (by simpa [sortDescCons] using h) with h1 | h1
    · rw [h1]; exact List.mem_cons_self x xs
    · exact List.mem_cons_of_mem x (ih h1)

/-- Rows are in weakly descending consumption order: no row's value
exceeds the previous row's. -/
def DescByCons (a b : EnergyRow) : Prop :=
  b.primary_energy_consumption ≤ a.primary_energy_consumption

lemma pairwise_insertDescCons {r : EnergyRow} {l : List EnergyRow}
    (h : l.Pairwise DescByCons) :
    (insertDescCons r l).Pairwise DescByCons := by
  induction l with
  | nil => simp [insertDescCons, List.pairwise_cons]
  | cons x xs ih =>
    rcases List.pairwise_cons.mp h with ⟨hx, hxs⟩
    by_cases hc : x.primary_energy_consumption ≤ r.primary_energy_consumption
    · rw [insertDescCons, if_pos hc]
      refine List.pairwise_cons.mpr ⟨?_, h⟩
      intro y hy
      rcases List.mem_cons.mp hy with h1 | h1
      · rw [h1]; exact hc
      · exact le_trans (hx y h1) hc
    · rw [insertDescCons, if_neg hc]
      refine List.pairwise_cons.mpr ⟨?_, ih hxs⟩
      intro y hy
      rcases mem_insertDescCons hy with h1 | h1
      · rw [h1]; exact le_of_not_le hc
      · exact hx y h1

lemma pairwise_sortDescCons (l : List EnergyRow) :
    (sortDescCons l).Pairwise DescByCons := by
  induction l with
  | nil => simp [sortDescCons]
  | cons x xs ih => exact pairwise_insertDescCons ih

lemma filter_insertDescCons (q : ℚ) (r : EnergyRow) (l : List EnergyRow) :
    (insertDescCons r l).filter
        (fun x => decide (x.primary_energy_consumption = q)) =
      if r.primary_energy_consumption = q then
        r :: l.filter (fun x => decide (x.primary_energy_consumption = q))
      else l.filter (fun x => decide (x.primary_energy_consumption = q)) := by
  induction l with
  | nil =>
    by_cases hq : r.primary_energy_consumption = q
    · simp [insertDescCons, hq]
    · simp [insertDescCons, hq]
  | cons x xs ih =>
    by_cases hc : x.primary_energy_consumption ≤ r.primary_energy_consumption
    · rw [insertDescCons, if_pos hc]
      by_cases hq : r.primary_energy_consumption = q
      · simp [List.filter_cons, hq]
      · simp [List.filter_cons, hq]
    · rw [insertDescCons, if_neg hc]
      by_cases hq : r.primary_energy_consumption = q
      · have hxq : ¬ x.primary_energy_consumption = q := by
          intro hxx
          exact hc (by rw [hxx, hq])
        simp [List.filter_cons, hxq, hq, ih]
      · by_cases hxq : x.primary_energy_consumption = q
        · simp [List.filter_cons, hxq, hq, ih]
        · simp [List.filter_cons, hxq, hq, ih]

lemma filter_sortDescCons (q : ℚ) (l : List EnergyRow) :
    (sortDescCons l).filter
        (fun x => decide (x.primary_energy_consumption = q)) =
      l.filter (fun x => decide (x.primary_energy_consumption = q)) := by
  induction l with
  | nil => rfl
  | cons x xs ih =>
    rw [sortDescCons, filter_insertDescCons]
    by_cases hq : x.primary_energy_consumption = q
    · simp [List.filter_cons, hq, ih]
    · simp [List.filter_cons, hq, ih]

/-- C5: the top-N consumers result restricts to rows of the requested
year; it has length `min N (number of rows at that year)`; it is weakly
descending by consumption (no value exceeds the previous entry); it is a
prefix of a stable descending sort (equal-valued rows keep their original
order); and `N` defaults to 10. -/
theorem top_consumers_spec (t : EnergyTable) (y : Int) (n : Nat) :
    (∀ r ∈ create_top_consumers_chart t y n, r.year = y) ∧
    (create_top_consumers_chart t y n).length = min n (yearRows t y).length ∧
    (create_top_consumers_chart t y n).Pairwise DescByCons ∧
    (create_top_consumers_chart t y n =
      (sortDescCons (yearRows t y)).take n ∧
     ∀ q : ℚ,
       (sortDescCons (yearRows t y)).filter
           (fun x => decide (x.primary_energy_consumption = q)) =
         (yearRows t y).filter
           (fun x => decide (x.primary_energy_consumption = q))) ∧
    create_top_consumers_chart t y = create_top_consumers_chart t y 10 := by
  refine ⟨?_, ?_, ?_, ⟨rfl, fun q => filter_sortDescCons q _⟩, rfl⟩
  · intro r hr
    have h1 : r ∈ sortDescCons (yearRows t y) :=
      (List.take_sublist n _).subset hr
    have h2 : r ∈ yearRows t y := mem_sortDescCons h1
    have := (List.mem_filter.mp h2).2
    exact of_decide_eq_true this
  · rw [create_top_consumers_chart, List.length_take, length_sortDescCons]
  · exact List.Pairwise.sublist (List.take_sublist n _) (pairwise_sortDescCons _)

/-- Witness rows for C5: three rows of the same year, two of them tied. -/
def rowC5a : EnergyRow := ⟨"A", 2020, 5, 0, 0, 0, 0, 0, 0, 0, 0, 0, 0, 0⟩

/-- Second witness row, tied with `rowC5a` on consumption. -/
def rowC5b : EnergyRow := ⟨"B", 2020, 5, 0, 0, 0, 0, 0, 0, 0, 0, 0, 0, 0⟩

/-- Third witness row, the largest consumer. -/
def rowC5c : EnergyRow := ⟨"C", 2020, 9, 0, 0, 0, 0, 0, 0, 0, 0, 0, 0, 0⟩

/-- C5 witness: the length clause evaluated on a concrete table. -/
theorem top_consumers_spec_witness :
    (create_top_consumers_chart [rowC5a, rowC5b, rowC5c] 2020 2).length =
      min 2 (yearRows [rowC5a, rowC5b, rowC5c] 2020).length :=
  (top_consumers_spec [rowC5a, rowC5b, rowC5c] 2020 2).2.1

/-- `df[(df['country'] == c) & (df['year'].dt.year == y)]`. -/
def matchingRows (t : EnergyTable) (c : String) (y : Int) : List EnergyRow :=
  t.filter (fun r => decide (r.country = c) && decide (r.year = y))

/-- The `energy_sources` dict of `create_energy_mix_chart`, in the literal
order of the source, read from one row. -/
def mixSources (r : EnergyRow) : List (String × ℚ) :=
  [("Coal", r.coal_consumption),
   ("Natural Gas", r.gas_consumption),
   ("Oil", r.oil_consumption),
   ("Nuclear", r.nuclear_consumption),
   ("Hydro", r.hydro_consumption),
   ("Wind", r.wind_consumption),
   ("Solar", r.solar_consumption),
   ("Other Renewables", r.other_renewable_consumption)]

/-- The mapping part of `create_energy_mix_chart` applied to one row:
drop the zero (actually non-positive) sources, and return `None` if
nothing is left. -/
def mixFromRow (r : EnergyRow) : Option (List (String × ℚ)) :=
  if ((mixSources r).filter (fun p => decide (0 < p.2))).isEmpty then none
  else some ((mixSources r).filter (fun p => decide (0 < p.2)))

/-- `create_energy_mix_chart(df, selected_country, selected_year)`: `None`
when no row matches; otherwise the source→value mapping of the first
matching row (`iloc[0]`) with non-positive values removed, `None` again if
that mapping is empty. -/
def create_energy_mix_chart (t : EnergyTable) (c : String) (y : Int) :
    Option (List (String × ℚ)) :=
  match matchingRows t c y with
  | [] => none
  | r :: _ => mixFromRow r

/-- The tracked source values of a row are non-negative. -/
def NonnegSources (r : EnergyRow) : Prop :=
  ∀ p ∈ mixSources r, 0 ≤ p.2

instance (r : EnergyRow) : Decidable (NonnegSources r) := by
  unfold NonnegSources; infer_instance

lemma mixFromRow_eq_none_iff {r : EnergyRow} (h : NonnegSources r) :
    mixFromRow r = none ↔ ∀ p ∈ mixSources r, p.2 = 0 := by
  rw [mixFromRow]
  by_cases he :
      ((mixSources r).filter (fun p => decide (0 < p.2))).isEmpty = true
  · rw [if_pos he]
    simp only [true_iff]
    rw [List.isEmpty_iff, List.filter_eq_nil_iff] at he
    intro p hp
    have h1 : ¬ (0 : ℚ) < p.2 := by
      intro hlt
      exact he p hp (by simpa using hlt)
    exact le_antisymm (not_lt.mp h1) (h p hp)
  · rw [if_neg he]
    simp only [reduceCtorEq, false_iff, not_forall]
    rw [List.isEmpty_iff] at he
    rcases List.exists_mem_of_ne_nil _ he with ⟨p, hp⟩
    have hmem := List.mem_filter.mp hp
    refine ⟨p, hmem.1, ?_⟩
    have hpos : (0 : ℚ) < p.2 := of_decide_eq_true hmem.2
    exact ne_of_gt hpos

/-- C6: with non-negative sources, the energy-mix function returns `None`
iff no row matches the (country, year) pair or every tracked source value
of its (first) matching row is zero; and when it returns a mapping, no
entry of the mapping is zero. -/
theorem energy_mix_none_iff_and_no_zero_entry (t : EnergyTable) (c : String)
    (y : Int) (h : ∀ r ∈ t, NonnegSources r) :
    (create_energy_mix_chart t c y = none ↔
      matchingRows t c y = [] ∨
        ∀ p ∈ mixSources ((matchingRows t c y).headD default), p.2 = 0) ∧
    (∀ m, create_energy_mix_chart t c y = some m → ∀ p ∈ m, p.2 ≠ 0) := by
  constructor
  · cases hm : matchingRows t c y with
    | nil => simp [create_energy_mix_chart, hm]
    | cons r rest =>
      have hr : r ∈ t := by
        have : r ∈ matchingRows t c y := by rw [hm]; exact List.mem_cons_self r rest
        exact (List.mem_filter.mp this).1
      have hnn : NonnegSources r := h r hr
      rw [create_energy_mix_chart, hm]
      simp only [List.headD_cons]
      rw [mixFromRow_eq_none_iff hnn]
      constructor
      · exact fun hz => Or.inr hz
      · rintro (hnil | hz)
        · cases hnil
        · exact hz
  · intro m hm p hp
    cases hmr : matchingRows t c y with
    | nil => rw [create_energy_mix_chart, hmr] at hm; cases hm
    | cons r rest =>
      have hstep : create_energy_mix_chart t c y = mixFromRow r := by
        rw [create_energy_mix_chart, hmr]
      rw [hstep, mixFromRow] at hm
      by_cases he :
          ((mixSources r).filter (fun q => decide (0 < q.2))).isEmpty = true
      · rw [if_pos he] at hm; cases hm
      · rw [if_neg he] at hm
        have hm' : (mixSources r).filter (fun q => decide (0 < q.2)) = m :=
          Option.some.inj hm
        rw [← hm'] at hp
        have hpos : (0 : ℚ) < p.2 := of_decide_eq_true (List.mem_filter.mp hp).2
        exact ne_of_gt hpos

/-- Witness row for C6: all tracked sources zero. -/
def rowC6 : EnergyRow := ⟨"A", 2020, 7, 0, 0, 0, 0, 0, 0, 0, 0, 0, 0, 0⟩

/-- C6 witness: on a concrete table whose only matching row has all-zero
sources, the mix function returns `None`, by the right-to-left direction
of the characterisation. -/
theorem energy_mix_none_iff_and_no_zero_entry_witness :
    create_energy_mix_chart [rowC6] "A" 2020 = none :=
  (energy_mix_none_iff_and_no_zero_entry [rowC6] "A" 2020 (by decide)).1.mpr
    (Or.inr (by decide))

/-- C10: when the (country, year) pair matches several rows (uniqueness is
not enforced), `create_energy_mix_chart` builds its mapping exclusively
from the first matching row in table order (`iloc[0]`); the values of all
later duplicate rows are ignored (the result does not depend on `rest`). -/
theorem energy_mix_uses_first_matching_row (t : EnergyTable) (c : String)
    (y : Int) (r : EnergyRow) (rest : List EnergyRow)
    (h : matchingRows t c y = r :: rest) :
    create_energy_mix_chart t c y = mixFromRow r := by
  rw [create_energy_mix_chart, h]

/-- First duplicate row for the C10 witness. -/
def rowC10a : EnergyRow := ⟨"A", 2020, 50, 5, 0, 0, 0, 0, 0, 0, 0, 0, 0, 0⟩

/-- Second duplicate row (same country and year, different values). -/
def rowC10b : EnergyRow := ⟨"A", 2020, 50, 999, 888, 0, 0, 0, 0, 0, 0, 0, 0, 0⟩

/-- C10 witness: on a table with two rows for ("A", 2020), the mix comes
from the first row only. -/
theorem energy_mix_uses_first_matching_row_witness :
    create_energy_mix_chart [rowC10a, rowC10b] "A" 2020 = mixFromRow rowC10a :=
  energy_mix_uses_first_matching_row [rowC10a, rowC10b] "A" 2020
    rowC10a [rowC10b] (by decide)

/-- Sum of the tracked source values of a row. -/
def sourcesSum (r : EnergyRow) : ℚ :=
  ((mixSources r).map Prod.snd).sum

/-- Row whose tracked sources exceed its primary consumption. -/
def rowC7 : EnergyRow := ⟨"A", 2020, 1, 10, 0, 0, 0, 0, 0, 0, 0, 0, 0, 0⟩

/-- C7 counterexample: nothing in the code bounds the source columns by
`primary_energy_consumption`; on a row with coal 10 but primary 1 the
mapping sums to 10 > 1, so the claimed bound fails for this table. -/
theorem energy_mix_sum_cex :
    create_energy_mix_chart [rowC7] "A" 2020 = some [("Coal", 10)] ∧
    (matchingRows [rowC7] "A" 2020).headD default = rowC7 ∧
    ¬ ((([(("Coal" : String), (10 : ℚ))]).map Prod.snd).sum ≤
        rowC7.primary_energy_consumption) := by
  refine ⟨by decide, by decide, ?_⟩
  norm_num [rowC7]

lemma sum_filter_le_sum (q : String × ℚ → Bool) (l : List (String × ℚ))
    (h : ∀ p ∈ l, 0 ≤ p.2) :
    ((l.filter q).map Prod.snd).sum ≤ (l.map Prod.snd).sum := by
  induction l with
  | nil => simp
  | cons p ps ih =>
    have htail : ((ps.filter q).map Prod.snd).sum ≤ (ps.map Prod.snd).sum :=
      ih (fun x hx => h x (List.mem_cons_of_mem p hx))
    have hp : 0 ≤ p.2 := h p (List.mem_cons_self p ps)
    by_cases hq : q p
    · simp only [List.filter_cons, hq, if_pos, List.map_cons, List.sum_cons]
      linarith
    · simp only [List.filter_cons, hq, Bool.false_eq_true, if_false,
        List.map_cons, List.sum_cons]
      linarith

/-- C7 (amended): for a table whose rows have non-negative tracked sources
summing to at most their `primary_energy_consumption` (the physical data
invariant the spec allows for with "sources not tracked"), whenever the
energy-mix function returns a mapping, the sum of the mapping's values is
at most the matched row's primary consumption. -/
theorem energy_mix_sum_le_primary (t : EnergyTable) (c : String) (y : Int)
    (h : ∀ r ∈ t, NonnegSources r ∧
           sourcesSum r ≤ r.primary_energy_consumption) :
    ∀ m, create_energy_mix_chart t c y = some m →
      (m.map Prod.snd).sum ≤
        ((matchingRows t c y).headD default).primary_energy_consumption := by
  intro m hm
  cases hmr : matchingRows t c y with
  | nil => rw [create_energy_mix_chart, hmr] at hm; cases hm
  | cons r rest =>
    have hr : r ∈ t := by
      have : r ∈ matchingRows t c y := by rw [hmr]; exact List.mem_cons_self r rest
      exact (List.mem_filter.mp this).1
    rcases h r hr with ⟨hnn, hsum⟩
    have hstep : create_energy_mix_chart t c y = mixFromRow r := by
      rw [create_energy_mix_chart, hmr]
    rw [hstep, mixFromRow] at hm
    by_cases he :
        ((mixSources r).filter (fun p => decide (0 < p.2))).isEmpty = true
    · rw [if_pos he] at hm; cases hm
    · rw [if_neg he] at hm
      have hm' : (mixSources r).filter (fun p => decide (0 < p.2)) = m :=
        Option.some.inj hm
      rw [List.headD_cons, ← hm']
      calc (((mixSources r).filter (fun p => decide (0 < p.2))).map Prod.snd).sum
          ≤ ((mixSources r).map Prod.snd).sum := sum_filter_le_sum _ _ hnn
        _ ≤ r.primary_energy_consumption := hsum

/-- Physically consistent witness row for C7. -/
def rowC7w : EnergyRow := ⟨"A", 2020, 100, 30, 20, 0, 0, 10, 0, 0, 0, 0, 0, 0⟩

/-- C7 witness: the amended bound evaluated on a concrete consistent
table (the mapping is Coal 30, Natural Gas 20, Hydro 10, summing to 60 ≤ 100). -/
theorem energy_mix_sum_le_primary_witness :
    (([(("Coal" : String), (30 : ℚ)), ("Natural Gas", 20), ("Hydro", 10)]).map
        Prod.snd).sum ≤
      ((matchingRows [rowC7w] "A" 2020).headD default).primary_energy_consumption :=
  energy_mix_sum_le_primary [rowC7w] "A" 2020
    (by
      intro r hr
      rw [List.mem_singleton] at hr
      subst hr
      refine ⟨by decide, ?_⟩
      norm_num [sourcesSum, mixSources, rowC7w])
    [("Coal", 30), ("Natural Gas", 20), ("Hydro", 10)] (by decide)

/-- Insert a row into a list sorted ascending by year, before the first
row with a year `≥` its own (so earlier rows with an equal year stay
ahead: stable, one deterministic realisation of `sort_values('year')`). -/
def insertYearAsc (r : EnergyRow) : List EnergyRow → List EnergyRow
  | [] => [r]
  | x :: xs => if r.year ≤ x.year then r :: x :: xs else x :: insertYearAsc r xs

/-- Stable ascending sort by year (`country_data.sort_values('year')`). -/
def sortYearAsc : List EnergyRow → List EnergyRow
  | [] => []
  | x :: xs => insertYearAsc x (sortYearAsc xs)

/-- The sidebar filter of `main()`:
`df[(country isin sel) & (year >= y1) & (year <= y2)]`. -/
def filterSelection (t : EnergyTable) (sel : List String) (y1 y2 : Int) :
    EnergyTable :=
  t.filter (fun r =>
    sel.contains r.country && decide (y1 ≤ r.year) && decide (r.year ≤ y2))

/-- `filtered_df[filtered_df['country'] == country].sort_values('year')`. -/
def countryRowsSorted (t : EnergyTable) (c : String) : List EnergyRow :=
  sortYearAsc (t.filter (fun r => decide (r.country = c)))

/-- The spec's growth-rate formula `((last/first)^(1/count) - 1) * 100`
over a country's year-sorted rows. -/
noncomputable def growthValue (t : EnergyTable) (c : String) : ℝ :=
  (((((countryRowsSorted t c).getLastD default).primary_energy_consumption : ℝ) /
        (((countryRowsSorted t c).headD default).primary_energy_consumption : ℝ)) ^
      ((1 : ℝ) / ((countryRowsSorted t c).length : ℝ)) - 1) * 100

/-- The per-country growth-rate computation of the insights section of
`main()`: sort the country's rows by year; if at least 2 rows exist and
the first `primary_energy_consumption` is positive, return
`((last/first) ** (1/len(rows)) - 1) * 100`, else nothing. -/
noncomputable def growth_rate? (t : EnergyTable) (c : String) : Option ℝ :=
  if 2 ≤ (countryRowsSorted t c).length then
    if 0 < ((countryRowsSorted t c).headD default).primary_energy_consumption
    then
      some ((((((countryRowsSorted t c).getLastD default).primary_energy_consumption : ℝ) /
            (((countryRowsSorted t c).headD default).primary_energy_consumption : ℝ)) ^
          ((1 : ℝ) / ((countryRowsSorted t c).length : ℝ)) - 1) * 100)
    else none
  else none

/-- The `growth_rates` list of the insights section: one `(country, rate)`
pair per selected country whose rate is defined, in selection order. -/
noncomputable def growth_rates (t : EnergyTable) (sel : List String) :
    List (String × ℝ) :=
  sel.filterMap (fun c => (growth_rate? t c).map (fun g => (c, g)))

/-- `max(growth_rates, key=lambda x: x[1])` : Python `max` keeps the first
maximal element, i.e. a left fold replacing the accumulator only on a
strictly greater key; `None` when the list is empty (the code guards with
`if growth_rates:`). -/
noncomputable def fastest_growing (t : EnergyTable) (sel : List String) :
    Option (String × ℝ) :=
  match growth_rates t sel with
  | [] => none
  | x :: xs => some (xs.foldl (fun b y => if b.2 < y.2 then y else b) x)

lemma foldl_max_pair_ge (l : List (String × ℝ)) (init : String × ℝ) :
    init.2 ≤ (l.foldl (fun b y => if b.2 < y.2 then y else b) init).2 ∧
    ∀ y ∈ l, y.2 ≤ (l.foldl (fun b y => if b.2 < y.2 then y else b) init).2 := by
  induction l generalizing init with
  | nil => exact ⟨le_refl _, by intro y hy; cases hy⟩
  | cons x xs ih =>
    have hstep1 : init.2 ≤ (if init.2 < x.2 then x else init).2 := by
      by_cases h : init.2 < x.2
      · rw [if_pos h]; exact le_of_lt h
      · rw [if_neg h]
    have hstep2 : x.2 ≤ (if init.2 < x.2 then x else init).2 := by
      by_cases h : init.2 < x.2
      · rw [if_pos h]
      · rw [if_neg h]; exact le_of_not_lt h
    obtain ⟨ih1, ih2⟩ := ih (if init.2 < x.2 then x else init)
    refine ⟨le_trans hstep1 ih1, ?_⟩
    intro y hy
    rcases List.mem_cons.mp hy with h | h
    · rw [h]; exact le_trans hstep2 ih1
    · exact ih2 y h

lemma mem_growth_rates {t : EnergyTable} {sel : List String} {c : String}
    {g : ℝ} (h : (c, g) ∈ growth_rates t sel) :
    c ∈ sel ∧ growth_rate? t c = some g := by
  rcases List.mem_filterMap.mp h with ⟨a, ha, hfa⟩
  cases hga : growth_rate? t a with
  | none => rw [hga] at hfa; cases hfa
  | some gv =>
    rw [hga] at hfa
    have hpair : (a, gv) = (c, g) := Option.some.inj hfa
    rw [Prod.mk.injEq] at hpair
    obtain ⟨h1, h2⟩ := hpair
    subst h1; subst h2
    exact ⟨ha, hga⟩

lemma growth_rates_mem {t : EnergyTable} {sel : List String} {c : String}
    {g : ℝ} (hc : c ∈ sel) (hg : growth_rate? t c = some g) :
    (c, g) ∈ growth_rates t sel := by
  exact List.mem_filterMap.mpr ⟨c, hc, by rw [hg]; rfl⟩

lemma fastest_growing_is_max {t : EnergyTable} {sel : List String}
    {p : String × ℝ} (h : fastest_growing t sel = some p) :
    ∀ q ∈ growth_rates t sel, q.2 ≤ p.2 := by
  cases hgr : growth_rates t sel with
  | nil =>
    intro q hq
    cases hq
  | cons x xs =>
    have hfg : fastest_growing t sel =
        some (xs.foldl (fun b y => if b.2 < y.2 then y else b) x) := by
      rw [fastest_growing, hgr]
    rw [hfg] at h
    have hp := Option.some.inj h
    obtain ⟨h1, h2⟩ := foldl_max_pair_ge xs x
    intro q hq
    rcases List.mem_cons.mp hq with hh | hh
    · rw [hh, ← hp]; exact h1
    · rw [← hp]; exact h2 q hh

/-- First row of the spec's 2-row growth example: (2000, 100). -/
def rowG2000 : EnergyRow := ⟨"A", 2000, 100, 0, 0, 0, 0, 0, 0, 0, 0, 0, 0, 0⟩

/-- Second row of the spec's 2-row growth example: (2001, 110). -/
def rowG2001 : EnergyRow := ⟨"A", 2001, 110, 0, 0, 0, 0, 0, 0, 0, 0, 0, 0, 0⟩

/-- The spec's 2-row example series [(2000, 100), (2001, 110)]. -/
def exampleGrowthTable : EnergyTable := [rowG2000, rowG2001]

lemma exampleGrowthTable_rows :
    countryRowsSorted exampleGrowthTable "A" = [rowG2000, rowG2001] := by
  decide

lemma example_growth_rate_val :
    growth_rate? exampleGrowthTable "A" =
      some ((((110 : ℝ) / (100 : ℝ)) ^ ((1 : ℝ) / (2 : ℝ)) - 1) * 100) := by
  rw [growth_rate?, exampleGrowthTable_rows]
  norm_num [rowG2000, rowG2001, List.getLastD]

lemma example_growth_rate_bounds :
    (488 / 100 : ℝ) <
      ((((110 : ℝ) / (100 : ℝ)) ^ ((1 : ℝ) / (2 : ℝ)) - 1) * 100) ∧
    ((((110 : ℝ) / (100 : ℝ)) ^ ((1 : ℝ) / (2 : ℝ)) - 1) * 100) <
      (489 / 100 : ℝ) := by
  have h110 : (110 : ℝ) / 100 = 11 / 10 := by norm_num
  have hs : ((11 : ℝ) / 10) ^ ((1 : ℝ) / (2 : ℝ)) = Real.sqrt (11 / 10) :=
    (Real.sqrt_eq_rpow _).symm
  have hlo : (10488 / 10000 : ℝ) < Real.sqrt (11 / 10) := by
    rw [Real.lt_sqrt (by norm_num)]
    norm_num
  have hhi : Real.sqrt (11 / 10) < (10489 / 10000 : ℝ) := by
    rw [Real.sqrt_lt' (by norm_num)]
    norm_num
  rw [h110, hs]
  constructor <;> nlinarith

/-- C4: over the selection-filtered frame, a selected country with at
least 2 year-sorted rows and positive first value gets the growth rate
`((last/first)^(1/count) - 1) * 100` and appears in the ranking list; all
ranked entries come from selected countries with a defined rate;
countries with an undefined rate are excluded; the "fastest growing"
entry has the maximum rate among those ranked; and the 2-row example
[(2000, 100), (2001, 110)] gets a rate strictly between 4.88 and 4.89. -/
theorem growth_rate_formula_and_ranking (t : EnergyTable)
    (sel : List String) (y1 y2 : Int) (c : String)
    (hc : c ∈ sel)
    (h2 : 2 ≤ (countryRowsSorted (filterSelection t sel y1 y2) c).length)
    (h0 : 0 < ((countryRowsSorted (filterSelection t sel y1 y2) c).headD
        default).primary_energy_consumption) :
    growth_rate? (filterSelection t sel y1 y2) c =
      some (growthValue (filterSelection t sel y1 y2) c) ∧
    (c, growthValue (filterSelection t sel y1 y2) c) ∈
      growth_rates (filterSelection t sel y1 y2) sel ∧
    (∀ c' g, (c', g) ∈ growth_rates (filterSelection t sel y1 y2) sel →
      c' ∈ sel ∧ growth_rate? (filterSelection t sel y1 y2) c' = some g) ∧
    (∀ c', growth_rate? (filterSelection t sel y1 y2) c' = none →
      ∀ g, (c', g) ∉ growth_rates (filterSelection t sel y1 y2) sel) ∧
    (∀ p, fastest_growing (filterSelection t sel y1 y2) sel = some p →
      ∀ q ∈ growth_rates (filterSelection t sel y1 y2) sel, q.2 ≤ p.2) ∧
    (∃ g, growth_rate? exampleGrowthTable "A" = some g ∧
      (488 / 100 : ℝ) < g ∧ g < (489 / 100 : ℝ)) := by
  have h1 : growth_rate? (filterSelection t sel y1 y2) c =
      some (growthValue (filterSelection t sel y1 y2) c) := by
    rw [growth_rate?, if_pos h2, if_pos h0, growthValue]
  refine ⟨h1, growth_rates_mem hc h1, ?_, ?_, ?_, ?_⟩
  · intro c' g hmem
    exact mem_growth_rates hmem
  · intro c' hnone g hmem
    have hsome := (mem_growth_rates hmem).2
    rw [hnone] at hsome
    cases hsome
  · intro p hp
    exact fastest_growing_is_max hp
  · exact ⟨_, example_growth_rate_val,
      example_growth_rate_bounds.1, example_growth_rate_bounds.2⟩

/-- C4 witness: the formula clause evaluated on the concrete example
table with selection ["A"] and year range [2000, 2001]. -/
theorem growth_rate_formula_and_ranking_witness :
    growth_rate? (filterSelection exampleGrowthTable ["A"] 2000 2001) "A" =
      some (growthValue (filterSelection exampleGrowthTable ["A"] 2000 2001) "A") :=
  (growth_rate_formula_and_ranking exampleGrowthTable ["A"] 2000 2001 "A"
    (by decide) (by decide) (by decide)).1

/-- `create_consumption_trends` data step:
`df[df['country'].isin(selected_countries)]`. -/
def create_consumption_trends (t : EnergyTable) (sel : List String) :
    EnergyTable :=
  t.filter (fun r => sel.contains r.country)

/-- Stateful view of `calculate_energy_metrics`: the function performs no
assignment on the stored frame, so the post-state is the input table. -/
def calculate_energy_metrics_run (t : EnergyTable) :
    EnergyMetrics × EnergyTable :=
  (calculate_energy_metrics t, t)

/-- Stateful view of the trend filter (no mutation of the stored frame). -/
def create_consumption_trends_run (t : EnergyTable) (sel : List String) :
    EnergyTable × EnergyTable :=
  (create_consumption_trends t sel, t)

/-- Stateful view of the energy-mix derivation (no mutation). -/
def create_energy_mix_chart_run (t : EnergyTable) (c : String) (y : Int) :
    Option (List (String × ℚ)) × EnergyTable :=
  (create_energy_mix_chart t c y, t)

/-- Stateful view of the top-N derivation (no mutation). -/
def create_top_consumers_chart_run (t : EnergyTable) (y : Int) (n : Nat) :
    List EnergyRow × EnergyTable :=
  (create_top_consumers_chart t y n, t)

/-- Stateful view of `create_renewable_growth_chart`: the code copies the
country-filtered frame (`.copy()`), sets a `total_renewable` column to 0
on the copy, then adds the four renewable columns to it in loop order.
All column assignments target the copy, so the post-state is the input
table; the derived frame (row paired with its `total_renewable`) is the
chart's data. -/
def create_renewable_growth_chart_run (t : EnergyTable) (sel : List String) :
    List (EnergyRow × ℚ) × EnergyTable :=
  let filtered := t.filter (fun r => sel.contains r.country)
  let step0 := filtered.map (fun r => (r, (0 : ℚ)))
  let step1 := step0.map (fun p => (p.1, p.2 + p.1.hydro_consumption))
  let step2 := step1.map (fun p => (p.1, p.2 + p.1.wind_consumption))
  let step3 := step2.map (fun p => (p.1, p.2 + p.1.solar_consumption))
  let step4 := step3.map (fun p => (p.1, p.2 + p.1.other_renewable_consumption))
  (step4, t)

/-- C9: every derivation function leaves the stored table unchanged (the
post-state of each stateful view equals the input); in particular the
renewable-growth derivation attaches its `total_renewable` column only to
the copied, filtered frame, whose value per row is the sum of the four
renewable columns. -/
theorem derivations_leave_table_unchanged (t : EnergyTable)
    (sel : List String) (c : String) (y : Int) (n : Nat) :
    (calculate_energy_metrics_run t).2 = t ∧
    (create_consumption_trends_run t sel).2 = t ∧
    (create_energy_mix_chart_run t c y).2 = t ∧
    (create_top_consumers_chart_run t y n).2 = t ∧
    (create_renewable_growth_chart_run t sel).2 = t ∧
    (create_renewable_growth_chart_run t sel).1 =
      (t.filter (fun r => sel.contains r.country)).map
        (fun r => (r, r.hydro_consumption + r.wind_consumption +
          r.solar_consumption + r.other_renewable_consumption)) := by
  refine ⟨rfl, rfl, rfl, rfl, rfl, ?_⟩
  show ((((((t.filter (fun r => sel.contains r.country)).map
      (fun r => (r, (0 : ℚ)))).map
      (fun p => (p.1, p.2 + p.1.hydro_consumption))).map
      (fun p => (p.1, p.2 + p.1.wind_consumption))).map
      (fun p => (p.1, p.2 + p.1.solar_consumption))).map
      (fun p => (p.1, p.2 + p.1.other_renewable_consumption))) = _
  rw [List.map_map, List.map_map, List.map_map, List.map_map]
  apply List.map_congr_left
  intro r _
  simp [Function.comp]

/-- C9 witness: the renewable-frame equation on a concrete table. -/
theorem derivations_leave_table_unchanged_witness :
    (create_renewable_growth_chart_run [rowC1] ["A"]).2 = [rowC1] :=
  (derivations_leave_table_unchanged [rowC1] ["A"] "A" 2022 10).2.2.2.2.1
